import Mathlib

/-!
Shallow embedding of the RAG tourism-assistant core:
`src/weather_service.py`, `src/rag_chain.py` and `src/vector_store.py`.

Conventions of the embedding:
* Python `datetime` values are represented by a calendar date (`Ymd`) plus the
  time of day in microseconds; `datetime` subtraction (`timedelta.days`, which
  floors) is modelled with `Int.fdiv` over microsecond counts.
* `random.randint(a, b)` is modelled as `a + v % (b + 1 - a)` where `v` is the
  next value of an abstract stream `g : Nat → Nat` of random draws; theorems
  quantify over all streams.  `random.choices` draws a float in `[0, total)`;
  it is modelled by a draw modulo the total weight (the float granularity is
  irrelevant to every property proved here).
* Fallible operations return `Option`/`Except` or an explicit error constructor
  (`WeatherResult.error`), mirroring the `try/except` structure of the source:
  `get_weather` catches every exception and returns an error payload, hence its
  embedding is a total function into `WeatherResult`.
-/

/-! ### Calendar dates and Python `datetime.strptime(v, "%Y-%m-%d")` -/

/-- Calendar date, the result of parsing a `%Y-%m-%d` string. -/
structure Ymd where
  y : Nat
  m : Nat
  d : Nat
deriving DecidableEq, Repr

/-- Gregorian leap-year rule, as used by Python's `datetime`. -/
def isLeap (y : Nat) : Bool :=
  (y % 4 == 0 && y % 100 != 0) || y % 400 == 0

/-- Number of days in month `m` of year `y` (Python `datetime` validation). -/
def daysInMonth (y m : Nat) : Nat :=
  if m = 2 then (if isLeap y then 29 else 28)
  else if m = 4 ∨ m = 6 ∨ m = 9 ∨ m = 11 then 30
  else 31

/-- Numeric value of an ASCII decimal digit `[0-9]`, `none` otherwise.  Used
for the strict `YYYY-MM-DD` shape; the regex directives below distinguish
explicit ASCII ranges such as `[0-9]` from the Unicode-aware `\d`. -/
def charDigit (c : Char) : Option Nat :=
  if '0' ≤ c ∧ c ≤ '9' then some (c.toNat - 48) else none

/-- First code points of the decades of Unicode decimal digits (category Nd)
in the Unicode database of the CPython under test (3.11): every Nd digit lies
in exactly one decade `[s, s+9]`, with digit values 0–9 in code-point order. -/
def ndDecadeStarts : List Nat := [
  48, 1632, 1776, 1984, 2406, 2534, 2662, 2790, 2918, 3046, 3174, 3302, 3430,
  3558, 3664, 3792, 3872, 4160, 4240, 6112, 6160, 6470, 6608, 6784, 6800,
  6992, 7088, 7232, 7248, 42528, 43216, 43264, 43472, 43504, 43600, 44016,
  65296, 66720, 68912, 69734, 69872, 69942, 70096, 70384, 70736, 70864,
  71248, 71360, 71472, 71904, 72016, 72784, 73040, 73120, 92768, 92864,
  93008, 120782, 120792, 120802, 120812, 120822, 123200, 123632, 125264,
  130032]

/-- Digit value of `n` if it falls in one of the listed Nd decades. -/
def findNdDecade (n : Nat) : List Nat → Option Nat
  | [] => none
  | s :: rest => if s ≤ n ∧ n ≤ s + 9 then some (n - s) else findNdDecade n rest

/-- CPython's str-pattern `\d`: any Unicode decimal digit (category Nd), with
the digit value `int()` assigns to it; `none` for every other character. -/
def unicodeDigit (c : Char) : Option Nat :=
  findNdDecade c.toNat ndDecadeStarts

/-- CPython's `%Y` directive matches exactly four `\d` (`\d\d\d\d`) — any
Unicode decimal digits, scripts may even be mixed; `int()` of the matched
group is the base-10 composition of the four digit values. -/
def matchYear4 : List Char → Option (Nat × List Char)
  | a :: b :: c :: d :: rest =>
    match unicodeDigit a, unicodeDigit b, unicodeDigit c, unicodeDigit d with
    | some x1, some x2, some x3, some x4 => some (((x1 * 10 + x2) * 10 + x3) * 10 + x4, rest)
    | _, _, _, _ => none
  | _ => none

/-- The alternatives of CPython's `%m` regex `1[0-2]|0[1-9]|[1-9]`, in the
order the regex engine tries them; each entry is (month value, rest).  All of
`%m`'s alternatives are literal characters or explicit ASCII ranges, so no
non-ASCII digit can appear in a month. -/
def monthAlts (cs : List Char) : List (Nat × List Char) :=
  (match cs with
   | c1 :: c2 :: rest =>
     (if c1 = '1' ∧ ('0' ≤ c2 ∧ c2 ≤ '2') then [(10 + (c2.toNat - 48), rest)] else []) ++
     (if c1 = '0' ∧ ('1' ≤ c2 ∧ c2 ≤ '9') then [(c2.toNat - 48, rest)] else [])
   | _ => []) ++
  (match cs with
   | c1 :: rest => if '1' ≤ c1 ∧ c1 ≤ '9' then [(c1.toNat - 48, rest)] else []
   | _ => [])

/-- The alternatives of CPython's `%d` regex `3[0-1]|[1-2]\d|0[1-9]|[1-9]| [1-9]`,
in regex order; each entry is (day value, rest).  The bracketed classes are
explicit ASCII ranges, but the `\d` of `[1-2]\d` matches any Unicode decimal
digit (so e.g. a day written `1٢` parses as 12). -/
def dayAlts (cs : List Char) : List (Nat × List Char) :=
  (match cs with
   | c1 :: c2 :: rest =>
     (if c1 = '3' ∧ ('0' ≤ c2 ∧ c2 ≤ '1') then [(30 + (c2.toNat - 48), rest)] else []) ++
     (match (if '1' ≤ c1 ∧ c1 ≤ '2' then unicodeDigit c2 else none) with
      | some d2 => [((c1.toNat - 48) * 10 + d2, rest)]
      | none => []) ++
     (if c1 = '0' ∧ ('1' ≤ c2 ∧ c2 ≤ '9') then [(c2.toNat - 48, rest)] else [])
   | _ => []) ++
  (match cs with
   | c1 :: rest => if '1' ≤ c1 ∧ c1 ≤ '9' then [(c1.toNat - 48, rest)] else []
   | _ => []) ++
  (match cs with
   | c1 :: c2 :: rest =>
     if c1 = ' ' ∧ ('1' ≤ c2 ∧ c2 ≤ '9') then [(c2.toNat - 48, rest)] else []
   | _ => [])

/-- First alternative (in regex order) that the continuation accepts. -/
def firstSome {α β : Type} (f : α → Option β) : List α → Option β
  | [] => none
  | x :: xs => match f x with
    | some y => some y
    | none => firstSome f xs

/-- Match `month '-' day` with the regex engine's backtracking: month
alternatives are tried in order, the first one followed by `'-'` and a day
match wins; the day itself has nothing after it in the pattern so its first
matching alternative is final. -/
def matchMonthDay (cs : List Char) : Option (Nat × Nat × List Char) :=
  firstSome
    (fun alt =>
      match alt.2 with
      | '-' :: rest2 =>
        match dayAlts rest2 with
        | (d, rest3) :: _ => some (alt.1, d, rest3)
        | [] => none
      | _ => none)
    (monthAlts cs)

/-- Embedding of `datetime.strptime(v, "%Y-%m-%d")` followed by `datetime`
construction: the regex match for `%Y-%m-%d`, the "unconverted data remains"
check, and validation of the day against the month (with year ≥ 1,
`MINYEAR`).  Returns `none` exactly when the Python call raises `ValueError`. -/
def pyStrptimeYmd (s : String) : Option Ymd :=
  match matchYear4 s.data with
  | none => none
  | some (y, rest) =>
    match rest with
    | '-' :: rest2 =>
      match matchMonthDay rest2 with
      | some (m, d, rest3) =>
        if rest3 = [] ∧ 1 ≤ y ∧ d ≤ daysInMonth y m then some ⟨y, m, d⟩ else none
      | none => none
    | _ => none

/-- Strict `YYYY-MM-DD` shape: four digits, dash, two digits, dash, two
digits.  This is the format named by the specification; the source's
validator accepts strictly more strings than this (see `pyStrptimeYmd`). -/
def isStrictYmdFormat (s : String) : Bool :=
  match s.data with
  | [a, b, c, d, h1, e, f, h2, g, i] =>
    (charDigit a).isSome && (charDigit b).isSome && (charDigit c).isSome &&
    (charDigit d).isSome && h1 = '-' && (charDigit e).isSome && (charDigit f).isSome &&
    h2 = '-' && (charDigit g).isSome && (charDigit i).isSome
  | _ => false

/-! ### Day arithmetic for `datetime` subtraction -/

/-- Days since the civil epoch 1970-01-01 (Howard Hinnant's `days_from_civil`
algorithm, which is what a correct `datetime` date difference computes). -/
def daysFromCivil (x : Ymd) : Int :=
  let y : Int := if x.m ≤ 2 then (x.y : Int) - 1 else (x.y : Int)
  let era : Int := Int.fdiv y 400
  let yoe : Int := y - era * 400
  let mp : Int := Int.emod ((x.m : Int) + 9) 12
  let doy : Int := Int.fdiv (153 * mp + 2) 5 + (x.d : Int) - 1
  let doe : Int := yoe * 365 + Int.fdiv yoe 4 - Int.fdiv yoe 100 + doy
  era * 146097 + doe - 719468

/-- Microseconds per day, the resolution of Python `datetime`. -/
def usecPerDay : Nat := 86400000000

/-- Python `datetime` value: a calendar date plus the time of day in
microseconds (`0 ≤ usec < usecPerDay` for values produced by `datetime.now()`). -/
structure PyDateTime where
  ymd : Ymd
  usec : Nat
deriving DecidableEq, Repr

/-- The `.days` field of a Python `timedelta` of `usecs` microseconds:
`timedelta` normalises so that `days` is the floor of the day count. -/
def pyTimedeltaDays (usecs : Int) : Int :=
  Int.fdiv usecs usecPerDay

/-- Embedding of `(date_obj - today).days` in `get_weather`: `date_obj` is the
requested date at midnight, `today` is `datetime.now()`. -/
def pyDaysDiff (today : PyDateTime) (date : Ymd) : Int :=
  pyTimedeltaDays (daysFromCivil date * usecPerDay -
    (daysFromCivil today.ymd * usecPerDay + today.usec))

/-! ### Randomness -/

/-- Stream of raw random draws; each call site consumes a fixed index. -/
def Rng : Type := Nat → Nat

/-- Embedding of `random.randint(a, b)` (inclusive bounds) applied to the raw
draw `v`. -/
def randint (a b v : Nat) : Nat := a + v % (b + 1 - a)

/-! ### Weather service (`src/weather_service.py`) -/

/-- Dictionary returned by `WeatherResponse.model_dump()`. -/
structure WeatherResponse where
  date : String
  location : String
  temperature_high : Nat
  temperature_low : Nat
  condition : String
  humidity : Nat
  wind_speed : Nat
  recommendation : String
  simulated : Bool
deriving DecidableEq, Repr

/-- Result dictionary of `WeatherService.get_weather`: either a forecast
(`model_dump` of a `WeatherResponse`) or the `{"error": True, "message": …}`
payload. -/
inductive WeatherResult where
  | forecast (w : WeatherResponse)
  | error (message : String)
deriving DecidableEq, Repr

/-- Does the result carry a forecast (no error)? -/
def WeatherResult.isForecast : WeatherResult → Bool
  | .forecast _ => true
  | .error _ => false

/-- Message of the date-format `ValueError` raised by
`WeatherRequest.validate_date_format` (pydantic wraps it in a longer
`ValidationError` text; only the fact that an error payload is returned
matters to the properties below). -/
def invalidFormatMsg : String := "Formato de fecha inválido. Usar YYYY-MM-DD"

/-- Error message for dates more than 7 `days_diff` in the future. -/
def tooFarMsg : String := "Solo puedo proporcionar pronósticos hasta 7 días en el futuro."

/-- Error message for dates with `days_diff < -1`. -/
def pastMsg : String := "No puedo proporcionar el tiempo para fechas pasadas."

/-- Generic message of the `except Exception` branch of `get_weather` (hit a.o.
when `simulated=False` and `_get_real_weather` raises `NotImplementedError`). -/
def genericWeatherErrorMsg : String := "Error al obtener el pronóstico del tiempo."

/-- Weighted `random.choices(conditions, weights=[40,30,15,10,5])` pick: the
draw is reduced modulo the total weight 100 and compared against the
cumulative weights. -/
def weightedCondition (v : Nat) : String :=
  if v % 100 < 40 then "Soleado"
  else if v % 100 < 70 then "Parcialmente nublado"
  else if v % 100 < 85 then "Nublado"
  else if v % 100 < 95 then "Lluvia ligera"
  else "Ventoso"

/-- The `RECOMMENDATIONS` dictionary of `WeatherService`. -/
def RECOMMENDATIONS (condition : String) : String :=
  if condition = "Soleado" then "Perfecto para la playa. No olvides protector solar y agua."
  else if condition = "Parcialmente nublado" then "Buen día para turismo. Lleva gafas de sol por si acaso."
  else if condition = "Nublado" then "Ideal para visitar museos o el casco histórico de La Laguna."
  else if condition = "Lluvia ligera" then "Lleva un paraguas. Buen día para visitar centros comerciales o restaurantes."
  else "Cuidado en zonas de acantilados. Evita actividades acuáticas."

/-- Embedding of `WeatherService._get_simulated_weather`.  The five random
draws (`temp_high`, `temp_low`, condition, humidity, wind) consume the stream
indices 0–4 in source order. -/
def get_simulated_weather (date location : String) (ymd : Ymd) (g : Rng) : WeatherResponse :=
  let month := ymd.m
  let temp_high :=
    if month = 12 ∨ month = 1 ∨ month = 2 then randint 18 22 (g 0)
    else if month = 3 ∨ month = 4 ∨ month = 5 then randint 20 24 (g 0)
    else if month = 6 ∨ month = 7 ∨ month = 8 then randint 25 30 (g 0)
    else randint 22 26 (g 0)
  let temp_low :=
    if month = 12 ∨ month = 1 ∨ month = 2 then randint 14 17 (g 1)
    else if month = 3 ∨ month = 4 ∨ month = 5 then randint 15 18 (g 1)
    else if month = 6 ∨ month = 7 ∨ month = 8 then randint 19 23 (g 1)
    else randint 17 20 (g 1)
  let condition := weightedCondition (g 2)
  { date := date
    location := location
    temperature_high := temp_high
    temperature_low := temp_low
    condition := condition
    humidity := randint 50 75 (g 3)
    wind_speed := randint 5 25 (g 4)
    recommendation := RECOMMENDATIONS condition
    simulated := true }

/-- Embedding of `WeatherService.get_weather`.  `simulated` is the service
flag, `today` models `datetime.now()`, `g` the random stream.  Every
`except` branch of the source returns an error payload, so the embedding is a
total function. -/
def get_weather (simulated : Bool) (today : PyDateTime) (g : Rng)
    (date location : String) : WeatherResult :=
  match pyStrptimeYmd date with
  | none => .error invalidFormatMsg
  | some ymd =>
    let days_diff := pyDaysDiff today ymd
    if days_diff > 7 then .error tooFarMsg
    else if days_diff < -1 then .error pastMsg
    else if simulated then .forecast (get_simulated_weather date location ymd g)
    else .error genericWeatherErrorMsg

/-! ### JSON values and `json.dumps` -/

/-- JSON values as produced by the tool layer (`model_dump()` dictionaries and
error payloads contain only strings, integers and booleans). -/
inductive Json where
  | str (s : String)
  | num (n : Int)
  | boolean (b : Bool)
  | obj (fields : List (String × Json))
deriving Repr

/-- Lowercase hexadecimal digit, as in Python's `\uXXXX` escapes. -/
def hexDigit (n : Nat) : Char :=
  if n < 10 then Char.ofNat (48 + n) else Char.ofNat (87 + n)

/-- Four-digit lowercase hexadecimal rendering of `n < 0x10000`. -/
def hex4 (n : Nat) : String :=
  String.mk [hexDigit (n / 4096 % 16), hexDigit (n / 256 % 16),
             hexDigit (n / 16 % 16), hexDigit (n % 16)]

/-- Escape one character inside a JSON string the way `json.dumps` does;
`ensureAscii` selects the default `ensure_ascii=True` behaviour (non-ASCII
characters become `\uXXXX` escapes, with surrogate pairs above U+FFFF). -/
def jsonEscapeChar (ensureAscii : Bool) (c : Char) : String :=
  if c = '"' then "\\\""
  else if c = '\\' then "\\\\"
  else if c = '\n' then "\\n"
  else if c = '\t' then "\\t"
  else if c = '\r' then "\\r"
  else if c = '\x08' then "\\b"
  else if c = '\x0c' then "\\f"
  else if c.toNat < 32 then "\\u" ++ hex4 c.toNat
  else if ensureAscii ∧ 127 < c.toNat then
    if c.toNat < 65536 then "\\u" ++ hex4 c.toNat
    else "\\u" ++ hex4 (55296 + (c.toNat - 65536) / 1024) ++
         "\\u" ++ hex4 (56320 + (c.toNat - 65536) % 1024)
  else String.singleton c

/-- Escape a whole JSON string body. -/
def jsonEscape (ensureAscii : Bool) (s : String) : String :=
  String.join (s.data.map (jsonEscapeChar ensureAscii))

mutual

/-- Embedding of `json.dumps` with default separators; `ensureAscii` is the
`ensure_ascii` keyword (the source uses `True` for the unknown-function
payload and `False` for weather results). -/
def pyJsonDumps (ensureAscii : Bool) : Json → String
  | .str s => "\"" ++ jsonEscape ensureAscii s ++ "\""
  | .num n => toString n
  | .boolean b => if b then "true" else "false"
  | .obj fs => "\x7b" ++ pyJsonDumpsFields ensureAscii fs ++ "\x7d"

/-- Comma-separated `"key": value` renderings of an object's fields. -/
def pyJsonDumpsFields (ensureAscii : Bool) : List (String × Json) → String
  | [] => ""
  | [(k, v)] => "\"" ++ jsonEscape ensureAscii k ++ "\": " ++ pyJsonDumps ensureAscii v
  | (k, v) :: rest =>
    "\"" ++ jsonEscape ensureAscii k ++ "\": " ++ pyJsonDumps ensureAscii v ++ ", " ++
    pyJsonDumpsFields ensureAscii rest

end

/-- JSON rendering of a `get_weather` result dictionary (`model_dump()` for a
forecast, the error payload otherwise), field order as in the source. -/
def weatherResultJson : WeatherResult → Json
  | .forecast w => .obj [("date", .str w.date), ("location", .str w.location),
      ("temperature_high", .num w.temperature_high), ("temperature_low", .num w.temperature_low),
      ("condition", .str w.condition), ("humidity", .num w.humidity),
      ("wind_speed", .num w.wind_speed), ("recommendation", .str w.recommendation),
      ("simulated", .boolean w.simulated)]
  | .error m => .obj [("error", .boolean true), ("message", .str m)]

/-! ### Tool calls and the weather tool (`parse_tool_call`) -/

/-- The model-supplied `function.arguments` payload.  In the source it is a
JSON string decoded with `json.loads`; the embedding represents it
post-decoding: either malformed JSON (`json.loads` raises
`JSONDecodeError`) or a decoded object of which `parse_tool_call` reads only
the keys `"date"` and `"location"`. -/
inductive ToolArgs where
  | malformed
  | object (date : Option String) (location : Option String)
deriving DecidableEq, Repr

/-- The `function` member of an OpenAI tool call. -/
structure ToolFunction where
  name : String
  arguments : ToolArgs
deriving DecidableEq, Repr

/-- An OpenAI tool call object. -/
structure ToolCall where
  id : String
  function : ToolFunction
deriving DecidableEq, Repr

/-- Configuration of a `WeatherService` instance bound into the chain. -/
structure WeatherCfg where
  simulated : Bool
deriving DecidableEq, Repr

/-- Message of the pydantic `ValidationError` raised when `date` is `None`
(the `arguments.get("date")` default); like the format error it is caught by
the `except ValueError` branch and only its presence matters here. -/
def noneDateMsg : String := "La fecha es obligatoria (date=None)"

/-- Message returned by `parse_tool_call` when `json.loads` fails. -/
def toolArgsErrorMsg : String := "Error al procesar la solicitud del tiempo."

/-- Embedding of `WeatherService.parse_tool_call`. -/
def parse_tool_call (svc : WeatherCfg) (today : PyDateTime) (g : Rng)
    (tc : ToolCall) : WeatherResult :=
  match tc.function.arguments with
  | .malformed => .error toolArgsErrorMsg
  | .object date location =>
    match date with
    | none => .error noneDateMsg
    | some d => get_weather svc.simulated today g d (location.getD "Tenerife")

/-- The `{"error": True, "message": f"Función desconocida: {function_name}"}`
payload of `RAGChain._handle_tool_call`, serialised with `json.dumps`
defaults (`ensure_ascii=True`). -/
def unknownFunctionDump (name : String) : String :=
  pyJsonDumps true (.obj [("error", .boolean true),
    ("message", .str ("Función desconocida: " ++ name))])

/-- Embedding of `RAGChain._handle_tool_call`: dispatch on the function name
(`get_weather` with a configured weather service), otherwise the structured
unknown-function payload; the result is always a serialised JSON string. -/
def handle_tool_call (weather_service : Option WeatherCfg) (today : PyDateTime)
    (g : Rng) (tc : ToolCall) : String :=
  if tc.function.name = "get_weather" then
    match weather_service with
    | some svc => pyJsonDumps false (weatherResultJson (parse_tool_call svc today g tc))
    | none => unknownFunctionDump tc.function.name
  else unknownFunctionDump tc.function.name

/-! ### Messages, chunks and the RAG chain (`src/rag_chain.py`) -/

/-- A chat message dictionary.  `content` is `none` for the assistant
tool-call message (`"content": None`); `tool_calls` and `tool_call_id` are
empty/absent for ordinary messages. -/
structure Message where
  role : String
  content : Option String
  tool_calls : List ToolCall := []
  tool_call_id : Option String := none
deriving DecidableEq, Repr

/-- Plain `{role, content}` message. -/
def mkMsg (role content : String) : Message :=
  { role := role, content := some content }

/-- The assistant message carrying the echoed tool call
(`{"role": "assistant", "content": None, "tool_calls": [...]}`). -/
def asstToolCallMsg (tc : ToolCall) : Message :=
  { role := "assistant", content := none,
    tool_calls := [{ id := tc.id,
                     function := { name := tc.function.name,
                                   arguments := tc.function.arguments } }] }

/-- The tool-result message
(`{"role": "tool", "tool_call_id": …, "content": …}`). -/
def toolResultMsg (id content : String) : Message :=
  { role := "tool", content := some content, tool_call_id := some id }

/-- Response of `OpenAIClient.get_completion_with_functions`: the assistant
text (if any) and the requested tool calls (`None` is the empty list). -/
structure ModelResponse where
  content : String
  tool_calls : List ToolCall
deriving DecidableEq, Repr

/-- A declared tool schema; only the name and description are relevant to the
orchestrator (the schema dict is passed verbatim to the model). -/
structure ToolSchema where
  name : String
  description : String
deriving DecidableEq, Repr

/-- The `WEATHER_TOOL_SCHEMA` constant (name and description part). -/
def WEATHER_TOOL_SCHEMA : ToolSchema :=
  { name := "get_weather"
    description := "Obtiene el pronóstico del tiempo para una fecha específica en Tenerife. Usar cuando el usuario pregunte sobre el clima, tiempo, temperatura o condiciones meteorológicas." }

/-- A retrieved chunk: the `page` metadata entry (absent ⇒ `'N/A'`) and the
`page_content` text. -/
structure Chunk where
  page : Option Nat
  page_content : String
deriving DecidableEq, Repr

/-- Rendering of `chunk.metadata.get('page', 'N/A')` as it appears in
f-strings. -/
def pageRepr (c : Chunk) : String :=
  match c.page with
  | some p => toString p
  | none => "N/A"

/-- Embedding of `RAGChain._build_context`. -/
def build_context (chunks : List Chunk) : String :=
  String.intercalate "\n\n---\n\n"
    (chunks.map fun c => "[Fuente: página " ++ pageRepr c ++ "]\n" ++ c.page_content)

/-- The user message of the current turn:
`f"CONTEXTO:\n{context}\n\nPREGUNTA: {question}"`. -/
def contextUserMessage (context question : String) : String :=
  "CONTEXTO:\n" ++ context ++ "\n\nPREGUNTA: " ++ question

/-- Python list slice `l[-m:]` for a non-negative `m`: the last `m` elements,
except that `m = 0` (since `-0 == 0`) yields the whole list. -/
def pySliceLast {α : Type} (m : Nat) (l : List α) : List α :=
  if m = 0 then l else l.drop (l.length - m)

/-- Embedding of `RAGChain._trim_history`. -/
def trim_history (max_history : Nat) (history : List Message) : List Message :=
  let max_messages := max_history * 2
  if history.length > max_messages then pySliceLast max_messages history else history

/-- Static configuration of a `RAGChain` instance. -/
structure ChainCfg where
  system_prompt : String
  max_history : Nat
  weather_service : Option WeatherCfg
deriving DecidableEq, Repr

/-- The `self.tools` list built in `RAGChain.__init__`. -/
def chainTools (cfg : ChainCfg) : List ToolSchema :=
  match cfg.weather_service with
  | some _ => [WEATHER_TOOL_SCHEMA]
  | none => []

/-- The message sequence assembled in step 3 of `RAGChain.query`:
system prompt, prior history, then the context-augmented user turn. -/
def build_messages (system_prompt : String) (history : List Message)
    (context question : String) : List Message :=
  mkMsg "system" system_prompt :: history ++ [mkMsg "user" (contextUserMessage context question)]

/-- The `sources` metadata of the query result: page reference and a 100
character preview per retrieved chunk. -/
def mkSources (chunks : List Chunk) : List (String × String) :=
  chunks.map fun c => (pageRepr c, c.page_content.take 100)

/-- Everything observable about one `RAGChain.query` call: the returned
dictionary (`question`, `answer`, `sources`, `tool_called`), the new value of
`self.history`, plus ghost trace fields used by the theorems — the messages of
the first model call, the messages of the second model call if a tool ran, and
the list of tool calls passed to `_handle_tool_call`. -/
structure QueryOut where
  question : String
  answer : String
  sources : List (String × String)
  tool_called : Bool
  new_history : List Message
  sent_messages : List Message
  second_messages : Option (List Message)
  executed_tool_calls : List ToolCall
deriving DecidableEq, Repr

/-- Embedding of `RAGChain.query`.  The external collaborators are passed as
functions: `fcClient` is `client.get_completion_with_functions`, `compClient`
is `client.get_completion`, `searchFn` is `vector_store.search`; `today`/`g`
feed the weather tool. -/
def query (cfg : ChainCfg) (history : List Message)
    (fcClient : List Message → List ToolSchema → ModelResponse)
    (compClient : List Message → String)
    (searchFn : String → Nat → List Chunk)
    (today : PyDateTime) (g : Rng) (question : String) (k : Nat) : QueryOut :=
  let chunks := searchFn question k
  let context := build_context chunks
  let messages := build_messages cfg.system_prompt history context question
  match chainTools cfg with
  | [] =>
    let answer := compClient messages
    { question := question, answer := answer, sources := mkSources chunks,
      tool_called := false,
      new_history := trim_history cfg.max_history
        (history ++ [mkMsg "user" question, mkMsg "assistant" answer]),
      sent_messages := messages, second_messages := none, executed_tool_calls := [] }
  | t :: ts =>
    let response := fcClient messages (t :: ts)
    match response.tool_calls with
    | [] =>
      let answer := response.content
      { question := question, answer := answer, sources := mkSources chunks,
        tool_called := false,
        new_history := trim_history cfg.max_history
          (history ++ [mkMsg "user" question, mkMsg "assistant" answer]),
        sent_messages := messages, second_messages := none, executed_tool_calls := [] }
    | tc :: _ =>
      let tool_result := handle_tool_call cfg.weather_service today g tc
      let messages2 := messages ++ [asstToolCallMsg tc, toolResultMsg tc.id tool_result]
      let answer := compClient messages2
      { question := question, answer := answer, sources := mkSources chunks,
        tool_called := true,
        new_history := trim_history cfg.max_history
          (history ++ [mkMsg "user" question, mkMsg "assistant" answer]),
        sent_messages := messages, second_messages := some messages2,
        executed_tool_calls := [tc] }

/-- Mutable state of a `RAGChain` instance (the conversation history). -/
structure ChainState where
  history : List Message
deriving DecidableEq, Repr

/-- Embedding of `RAGChain.clear_history`. -/
def clear_history (_s : ChainState) : ChainState := { history := [] }

/-- Embedding of `RAGChain.get_history`: `self.history.copy()` returns a fresh
list with the same elements, i.e. the history value itself in the value
semantics of the embedding (which is exactly why mutating the returned list
cannot change the stored history). -/
def get_history (s : ChainState) : List Message := s.history

/-! ### Vector store (`src/vector_store.py`) -/

/-- A source document page handed to the splitter. -/
structure Page where
  page : Option Nat
  content : String
deriving DecidableEq, Repr

/-- External collaborators of `VectorStore`: the Chroma index constructor and
its two similarity-search entry points (`Ix` is the index representation,
`σ` the provider-defined score type). -/
structure VSBackend (Ix σ : Type) where
  fromDocuments : List Chunk → Ix
  similaritySearch : Ix → String → Nat → List Chunk
  similaritySearchWithScore : Ix → String → Nat → List (Chunk × σ)

/-- Mutable state of a `VectorStore` instance: `self.vectorstore` (`None`
until built or loaded) and `self.chunks`. -/
structure VSState (Ix : Type) where
  vectorstore : Option Ix
  chunks : List Chunk

/-- Error message of `VectorStore.search` before initialization. -/
def notInitSearchMsg : String :=
  "Vector store not initialized. Call build_from_documents() or load_existing() first."

/-- Error message of `VectorStore.search_with_scores` before initialization. -/
def notInitScoresMsg : String := "Vector store not initialized."

/-- Embedding of `VectorStore.build_from_documents` (with the external
splitter `split` and backend `B`; the filesystem `_clear_existing` side effect
has no bearing on the in-memory state).  Returns the new state and the chunk
count. -/
def vs_build_from_documents {Ix σ : Type} (B : VSBackend Ix σ)
    (split : List Page → List Chunk) (_s : VSState Ix) (pages : List Page) :
    VSState Ix × Nat :=
  let chunks := split pages
  ({ vectorstore := some (B.fromDocuments chunks), chunks := chunks }, chunks.length)

/-- Embedding of `VectorStore.search`; the `raise ValueError` is the `.error`
case. -/
def vs_search {Ix σ : Type} (B : VSBackend Ix σ) (s : VSState Ix)
    (q : String) (k : Nat) : Except String (List Chunk) :=
  match s.vectorstore with
  | none => .error notInitSearchMsg
  | some ix => .ok (B.similaritySearch ix q k)

/-- Embedding of `VectorStore.search_with_scores`. -/
def vs_search_with_scores {Ix σ : Type} (B : VSBackend Ix σ) (s : VSState Ix)
    (q : String) (k : Nat) : Except String (List (Chunk × σ)) :=
  match s.vectorstore with
  | none => .error notInitScoresMsg
  | some ix => .ok (B.similaritySearchWithScore ix q k)

/-! ### History bookkeeping used by the trimming theorems -/

/-- Messages of one completed turn: the user question and assistant answer. -/
def turnMsgs (t : String × String) : List Message :=
  [mkMsg "user" t.1, mkMsg "assistant" t.2]

/-- Messages of a sequence of turns, in order. -/
def turnsToMsgs : List (String × String) → List Message
  | [] => []
  | t :: ts => turnMsgs t ++ turnsToMsgs ts

/-- The last `n` elements of a list (all of it when `n ≥ length`). -/
def lastN {α : Type} (n : Nat) (l : List α) : List α := l.drop (l.length - n)

/-- Runs one completed `query` per listed turn on a chain without tools, where
for turn `(q, a)` the language model returns answer `a`; yields the stored
history after the whole sequence (folding the real `query` function from an
empty history). -/
def runQueries (M : Nat) (sys : String) (searchFn : String → Nat → List Chunk)
    (k : Nat) (today : PyDateTime) (g : Rng)
    (turns : List (String × String)) : List Message :=
  turns.foldl
    (fun h t =>
      (query ⟨sys, M, none⟩ h (fun _ _ => ⟨"", []⟩) (fun _ => t.2) searchFn today g t.1 k).new_history)
    []

/-- A `get_completion_with_functions` stub that returns the fixed response `r`
for every message list, used to quantify over model responses. -/
def constFc (r : ModelResponse) : List Message → List ToolSchema → ModelResponse :=
  fun _ _ => r

/-! ### Concrete fixtures used by witnesses and counterexamples -/

/-- All-zero random stream. -/
def rng0 : Rng := fun _ => 0

/-- A fixed "now": 2025-06-15 at exactly midnight. -/
def midnight0615 : PyDateTime := ⟨⟨2025, 6, 15⟩, 0⟩

/-- A fixed "now": 2025-06-15 at 12:00:00 (noon). -/
def noon0615 : PyDateTime := ⟨⟨2025, 6, 15⟩, 43200000000⟩

/-- Retrieval stub returning no chunks. -/
def emptySearch : String → Nat → List Chunk := fun _ _ => []

/-- Completion stub returning a fixed answer. -/
def comp0 : List Message → String := fun _ => "ok"

/-- Chain configuration with a simulated weather service attached. -/
def cfgW : ChainCfg := ⟨"sys", 5, some ⟨true⟩⟩

/-- A weather tool call for 2025-06-16. -/
def tcA : ToolCall := ⟨"id1", ⟨"get_weather", .object (some "2025-06-16") none⟩⟩

/-- A second weather tool call, never to be executed. -/
def tcB : ToolCall := ⟨"id2", ⟨"get_weather", .object (some "2025-06-17") none⟩⟩

/-- A tool call for an unregistered function name. -/
def tcU : ToolCall := ⟨"idU", ⟨"get_time", .object none none⟩⟩

/-- Weather response produced by `rng0` for an in-window December date. -/
def winterW : WeatherResponse :=
  { date := "2025-12-20", location := "Tenerife", temperature_high := 18,
    temperature_low := 14, condition := "Soleado", humidity := 50, wind_speed := 5,
    recommendation := "Perfecto para la playa. No olvides protector solar y agua.",
    simulated := true }

/-- A fixed "now" in December, at midnight. -/
def midnight1215 : PyDateTime := ⟨⟨2025, 12, 15⟩, 0⟩

/-- Trivial vector-store backend over a unit index. -/
def backend0 : VSBackend Unit Nat :=
  { fromDocuments := fun _ => ()
    similaritySearch := fun _ _ _ => []
    similaritySearchWithScore := fun _ _ _ => [] }

/-- Splitter stub: one chunk per page. -/
def split0 : List Page → List Chunk :=
  fun pages => pages.map fun p => { page := p.page, page_content := p.content }

/-- An uninitialized vector-store state. -/
def vs0 : VSState Unit := ⟨none, []⟩

/-! ### General lemmas -/

theorem randint_bounds (a b v : Nat) (h : a ≤ b) :
    a ≤ randint a b v ∧ randint a b v ≤ b := by
  unfold randint
  have hlt : v % (b + 1 - a) < b + 1 - a := Nat.mod_lt _ (by omega)
  omega

theorem pyTimedeltaDays_eq_ediv (x : Int) : pyTimedeltaDays x = x / 86400000000 := by
  unfold pyTimedeltaDays usecPerDay
  exact Int.fdiv_eq_ediv _ (by positivity)

/-- The floor structure of `(date_obj - today).days`: with the requested date
`k` calendar days after (or before) today's date, the difference is `k` at
exactly midnight and `k - 1` at any later time of day. -/
theorem pyDaysDiff_shift (today : PyDateTime) (d : Ymd) (k : Int)
    (hk : daysFromCivil d = daysFromCivil today.ymd + k)
    (ht : today.usec < usecPerDay) :
    pyDaysDiff today d = if today.usec = 0 then k else k - 1 := by
  unfold pyDaysDiff
  rw [pyTimedeltaDays_eq_ediv, hk]
  unfold usecPerDay at ht ⊢
  have h1 : (daysFromCivil today.ymd + k) * ((86400000000 : Nat) : Int) -
      (daysFromCivil today.ymd * ((86400000000 : Nat) : Int) + (today.usec : Int)) =
      k * 86400000000 - (today.usec : Int) := by push_cast; ring
  rw [h1]
  have ht' : (today.usec : Int) < 86400000000 := by exact_mod_cast ht
  have ht0 : (0 : Int) ≤ (today.usec : Int) := Int.natCast_nonneg _
  split
  case isTrue h0 =>
    rw [h0]; push_cast
    omega
  case isFalse h0 =>
    have : (0 : Int) < (today.usec : Int) := by
      have : today.usec ≠ 0 := h0
      omega
    omega

/-- Shape of `get_weather` once the date string has parsed: the date-window
checks followed by the simulated forecast. -/
theorem get_weather_parsed (today : PyDateTime) (g : Rng) (s loc : String)
    (ymd : Ymd) (hparse : pyStrptimeYmd s = some ymd) :
    get_weather true today g s loc =
      (if pyDaysDiff today ymd > 7 then .error tooFarMsg
       else if pyDaysDiff today ymd < -1 then .error pastMsg
       else .forecast (get_simulated_weather s loc ymd g)) := by
  unfold get_weather
  rw [hparse]
  rfl

/-! ### C1 — the date-window policy -/

/-- C1, as stated, is refuted at noon: with "today" = 2025-06-15 12:00, the
requested date `D+8` (2025-06-23) yields a forecast instead of the
"too far in future" error, and `D-1` (2025-06-14) yields the "past date"
error instead of a forecast. -/
theorem date_window_noon_counterexample :
    daysFromCivil ⟨2025, 6, 23⟩ = daysFromCivil noon0615.ymd + 8 ∧
    daysFromCivil ⟨2025, 6, 14⟩ = daysFromCivil noon0615.ymd + (-1) ∧
    (get_weather true noon0615 rng0 "2025-06-23" "Tenerife").isForecast = true ∧
    get_weather true noon0615 rng0 "2025-06-14" "Tenerife" = .error pastMsg := by
  refine ⟨by decide, by decide, ?_, ?_⟩ <;> decide

/-- C1 (amended): the stated windows hold when `datetime.now()` is exactly
midnight; at any strictly later time of day every window shifts one day
later (`D` through `D+8` yield forecasts, `D-1` and earlier the past-date
error, `D+9` and later the too-far error), because `days_diff` is the floor
of a time difference measured from the current time of day. -/
theorem date_window_policy (today : PyDateTime) (g : Rng) (s loc : String)
    (ymd : Ymd) (k : Int)
    (hparse : pyStrptimeYmd s = some ymd)
    (hk : daysFromCivil ymd = daysFromCivil today.ymd + k)
    (ht : today.usec < usecPerDay) :
    (today.usec = 0 →
      (8 ≤ k → get_weather true today g s loc = .error tooFarMsg) ∧
      (k ≤ -2 → get_weather true today g s loc = .error pastMsg) ∧
      (-1 ≤ k → k ≤ 7 → (get_weather true today g s loc).isForecast = true)) ∧
    (0 < today.usec →
      (9 ≤ k → get_weather true today g s loc = .error tooFarMsg) ∧
      (k ≤ -1 → get_weather true today g s loc = .error pastMsg) ∧
      (0 ≤ k → k ≤ 8 → (get_weather true today g s loc).isForecast = true)) := by
  have hd := pyDaysDiff_shift today ymd k hk ht
  rw [get_weather_parsed today g s loc ymd hparse]
  constructor
  · intro h0
    rw [if_pos h0] at hd
    rw [hd]
    refine ⟨fun h8 => ?_, fun h2 => ?_, fun hlo hhi => ?_⟩
    · rw [if_pos (by omega)]
    · rw [if_neg (by omega), if_pos (by omega)]
    · rw [if_neg (by omega), if_neg (by omega)]; rfl
  · intro hpos
    rw [if_neg (by omega)] at hd
    rw [hd]
    refine ⟨fun h9 => ?_, fun h1 => ?_, fun hlo hhi => ?_⟩
    · rw [if_pos (by omega)]
    · rw [if_neg (by omega), if_pos (by omega)]
    · rw [if_neg (by omega), if_neg (by omega)]; rfl

/-- Witness for `date_window_policy` at "today" = 2025-06-15 00:00 and the
date `D+7` = 2025-06-22: a forecast is produced. -/
theorem date_window_policy_witness :
    (get_weather true midnight0615 rng0 "2025-06-22" "Tenerife").isForecast = true :=
  ((date_window_policy midnight0615 rng0 "2025-06-22" "Tenerife" ⟨2025, 6, 22⟩ 7
    (by decide) (by decide) (by decide)).1 rfl).2.2 (by decide) (by decide)

/-! ### C2 — seasonal temperature banding -/

/-- C2: for every valid in-window date (any random stream), a December date
yields `temperature_high` in the winter band [18, 22] and a July date yields
it in the summer band [25, 30]. -/
theorem seasonal_banding (today : PyDateTime) (g : Rng) (s loc : String)
    (ymd : Ymd) (w : WeatherResponse)
    (hparse : pyStrptimeYmd s = some ymd)
    (hres : get_weather true today g s loc = .forecast w) :
    (ymd.m = 12 → 18 ≤ w.temperature_high ∧ w.temperature_high ≤ 22) ∧
    (ymd.m = 7 → 25 ≤ w.temperature_high ∧ w.temperature_high ≤ 30) := by
  rw [get_weather_parsed today g s loc ymd hparse] at hres
  split at hres
  · exact absurd hres (by simp)
  · split at hres
    · exact absurd hres (by simp)
    · injection hres with hw
      subst hw
      constructor
      · intro hm
        simp only [get_simulated_weather, hm]
        norm_num
        exact randint_bounds 18 22 (g 0) (by omega)
      · intro hm
        simp only [get_simulated_weather, hm]
        norm_num
        exact randint_bounds 25 30 (g 0) (by omega)

/-- Witness for `seasonal_banding`: December 20, 2025 under the all-zero
stream produces the concrete winter forecast `winterW`, whose high is in
[18, 22]. -/
theorem seasonal_banding_witness :
    18 ≤ winterW.temperature_high ∧ winterW.temperature_high ≤ 22 :=
  (seasonal_banding midnight1215 rng0 "2025-12-20" "Tenerife" ⟨2025, 12, 20⟩ winterW
    (by decide) (by decide)).1 rfl

/-! ### C10 — well-formedness of every simulated forecast -/

/-- C10: every non-error result of the (simulated) weather service has
`temperature_low < temperature_high`, humidity in [50, 75], wind speed in
[5, 25], and the `simulated` flag set. -/
theorem forecast_well_formed (today : PyDateTime) (g : Rng) (s loc : String)
    (w : WeatherResponse)
    (hres : get_weather true today g s loc = .forecast w) :
    w.temperature_low < w.temperature_high ∧
    50 ≤ w.humidity ∧ w.humidity ≤ 75 ∧
    5 ≤ w.wind_speed ∧ w.wind_speed ≤ 25 ∧
    w.simulated = true := by
  cases hp : pyStrptimeYmd s with
  | none =>
    unfold get_weather at hres
    rw [hp] at hres
    exact absurd hres (by simp)
  | some ymd =>
    rw [get_weather_parsed today g s loc ymd hp] at hres
    split at hres
    · exact absurd hres (by simp)
    · split at hres
      · exact absurd hres (by simp)
      · injection hres with hw
        subst hw
        have hh := randint_bounds 50 75 (g 3) (by omega)
        have hws := randint_bounds 5 25 (g 4) (by omega)
        unfold get_simulated_weather
        dsimp only
        by_cases m1 : ymd.m = 12 ∨ ymd.m = 1 ∨ ymd.m = 2
        · simp only [if_pos m1]
          have b1 := randint_bounds 18 22 (g 0) (by omega)
          have b2 := randint_bounds 14 17 (g 1) (by omega)
          exact ⟨by omega, hh.1, hh.2, hws.1, hws.2, trivial⟩
        · simp only [if_neg m1]
          by_cases m2 : ymd.m = 3 ∨ ymd.m = 4 ∨ ymd.m = 5
          · simp only [if_pos m2]
            have b1 := randint_bounds 20 24 (g 0) (by omega)
            have b2 := randint_bounds 15 18 (g 1) (by omega)
            exact ⟨by omega, hh.1, hh.2, hws.1, hws.2, trivial⟩
          · simp only [if_neg m2]
            by_cases m3 : ymd.m = 6 ∨ ymd.m = 7 ∨ ymd.m = 8
            · simp only [if_pos m3]
              have b1 := randint_bounds 25 30 (g 0) (by omega)
              have b2 := randint_bounds 19 23 (g 1) (by omega)
              exact ⟨by omega, hh.1, hh.2, hws.1, hws.2, trivial⟩
            · simp only [if_neg m3]
              have b1 := randint_bounds 22 26 (g 0) (by omega)
              have b2 := randint_bounds 17 20 (g 1) (by omega)
              exact ⟨by omega, hh.1, hh.2, hws.1, hws.2, trivial⟩

/-- Witness for `forecast_well_formed` on the concrete December forecast. -/
theorem forecast_well_formed_witness :
    winterW.temperature_low < winterW.temperature_high ∧
    50 ≤ winterW.humidity ∧ winterW.humidity ≤ 75 ∧
    5 ≤ winterW.wind_speed ∧ winterW.wind_speed ≤ 25 ∧
    winterW.simulated = true :=
  forecast_well_formed midnight1215 rng0 "2025-12-20" "Tenerife" winterW (by decide)

/-! ### C4 — date-format validation -/

/-- C4, as stated, is refuted: `"2025-6-15"` is not in `YYYY-MM-DD` format
(the month is not two digits), yet with "today" = 2025-06-15 the call returns
a normal forecast, because `strptime` also accepts unpadded months/days. -/
theorem strict_format_counterexample :
    isStrictYmdFormat "2025-6-15" = false ∧
    (get_weather true midnight0615 rng0 "2025-6-15" "Tenerife").isForecast = true := by
  constructor <;> decide

/-- C4 (amended): every date string rejected by the source's validator
(`strptime("%Y-%m-%d")`, which demands a 4-digit year but accepts 1–2-digit
months and days — a strict superset of `YYYY-MM-DD`) makes `get_weather`
return the structured `{error: true, message}` payload; no forecast is
produced and, the embedding being total, no exception escapes.  Strings that
are lenient-parseable but not strict `YYYY-MM-DD` instead reach the normal
forecast path (see `strict_format_counterexample`). -/
theorem invalid_date_error (today : PyDateTime) (g : Rng) (s loc : String)
    (h : pyStrptimeYmd s = none) :
    get_weather true today g s loc = .error invalidFormatMsg ∧
    (get_weather true today g s loc).isForecast = false := by
  unfold get_weather
  rw [h]
  exact ⟨rfl, rfl⟩

/-- Witness for `invalid_date_error` on the malformed string `"15/06/2025"`. -/
theorem invalid_date_error_witness :
    get_weather true midnight0615 rng0 "15/06/2025" "Tenerife" = .error invalidFormatMsg ∧
    (get_weather true midnight0615 rng0 "15/06/2025" "Tenerife").isForecast = false :=
  invalid_date_error midnight0615 rng0 "15/06/2025" "Tenerife" (by decide)

/-! ### C3 — FIFO history trimming -/

theorem turnsToMsgs_length (ts : List (String × String)) :
    (turnsToMsgs ts).length = 2 * ts.length := by
  induction ts with
  | nil => rfl
  | cons t ts ih => simp [turnsToMsgs, turnMsgs, ih]; omega

theorem turnsToMsgs_append (a b : List (String × String)) :
    turnsToMsgs (a ++ b) = turnsToMsgs a ++ turnsToMsgs b := by
  induction a with
  | nil => rfl
  | cons t ts ih => simp [turnsToMsgs, ih]

theorem lastN_length {α : Type} (n : Nat) (l : List α) :
    (lastN n l).length = l.length - (l.length - n) := by
  simp [lastN]

theorem lastN_of_le {α : Type} (n : Nat) (l : List α) (h : l.length ≤ n) :
    lastN n l = l := by
  unfold lastN
  rw [Nat.sub_eq_zero_of_le h, List.drop_zero]

theorem lastN_lastN_append {α : Type} (n : Nat) (a b : List α) :
    lastN n (lastN n a ++ b) = lastN n (a ++ b) := by
  unfold lastN
  have h1 : a.drop (a.length - n) ++ b = (a ++ b).drop (a.length - n) := by
    rw [List.drop_append_eq_append_drop, Nat.sub_eq_zero_of_le (Nat.sub_le _ _),
      List.drop_zero]
  rw [h1, List.drop_drop, List.length_drop, List.length_append]
  congr 1
  omega

/-- One history update of a no-tool `query` call: append the turn's two
messages, then trim. -/
theorem query_no_tool_history (M : Nat) (sys : String)
    (searchFn : String → Nat → List Chunk) (k : Nat) (today : PyDateTime)
    (g : Rng) (h : List Message) (q a : String) :
    (query ⟨sys, M, none⟩ h (fun _ _ => ⟨"", []⟩) (fun _ => a) searchFn today g q k).new_history
      = trim_history M (h ++ turnMsgs (q, a)) := rfl

/-- Trimming after one appended turn, starting from at most `M` stored turns:
the kept turns are exactly the last `M` of the extended sequence. -/
theorem trim_history_step (M : Nat) (hM : 1 ≤ M) (u : List (String × String))
    (hu : u.length ≤ M) (t : String × String) :
    trim_history M (turnsToMsgs u ++ turnMsgs t) = turnsToMsgs (lastN M (u ++ [t])) := by
  have hlen : (turnsToMsgs u ++ turnMsgs t).length = 2 * u.length + 2 := by
    simp [turnsToMsgs_length, turnMsgs]
  unfold trim_history
  rcases Nat.lt_or_ge u.length M with hlt | hge
  · rw [if_neg (by omega)]
    rw [lastN_of_le M (u ++ [t])
      (by simp only [List.length_append, List.length_singleton]; omega)]
    rw [turnsToMsgs_append]
    rfl
  · have heq : u.length = M := by omega
    rw [if_pos (by omega)]
    unfold pySliceLast
    rw [if_neg (by omega)]
    rw [hlen]
    have hdrop2 : 2 * u.length + 2 - M * 2 = 2 := by omega
    rw [hdrop2]
    cases u with
    | nil => simp at heq; omega
    | cons t0 u' =>
      have hfront : turnsToMsgs (t0 :: u') ++ turnMsgs t
          = turnMsgs t0 ++ (turnsToMsgs u' ++ turnMsgs t) := by
        simp [turnsToMsgs]
      rw [hfront]
      have hdrop : (turnMsgs t0 ++ (turnsToMsgs u' ++ turnMsgs t)).drop 2
          = turnsToMsgs u' ++ turnMsgs t := rfl
      rw [hdrop]
      unfold lastN
      have hL : ((t0 :: u') ++ [t]).length - M = 1 := by simp at heq ⊢; omega
      rw [hL]
      have : ((t0 :: u') ++ [t]).drop 1 = u' ++ [t] := rfl
      rw [this, turnsToMsgs_append]
      rfl

/-- Invariant of the query fold: starting from at most `M` stored turns, the
history after any further sequence of turns is the message rendering of the
last `M` turns of the combined sequence. -/
theorem runQueries_invariant (M : Nat) (hM : 1 ≤ M) (sys : String)
    (searchFn : String → Nat → List Chunk) (k : Nat) (today : PyDateTime) (g : Rng)
    (ts : List (String × String)) :
    ∀ u : List (String × String), u.length ≤ M →
      ts.foldl
        (fun h t =>
          (query ⟨sys, M, none⟩ h (fun _ _ => ⟨"", []⟩) (fun _ => t.2) searchFn today g t.1 k).new_history)
        (turnsToMsgs u)
      = turnsToMsgs (lastN M (u ++ ts)) := by
  induction ts with
  | nil =>
    intro u hu
    simp only [List.foldl_nil, List.append_nil]
    rw [lastN_of_le M u hu]
  | cons t ts ih =>
    intro u hu
    simp only [List.foldl_cons]
    rw [query_no_tool_history M sys searchFn k today g (turnsToMsgs u) t.1 t.2]
    have ht : (t.1, t.2) = t := rfl
    rw [ht]
    rw [trim_history_step M hM u hu t]
    have hlen : (lastN M (u ++ [t])).length ≤ M := by
      rw [lastN_length]; omega
    rw [ih (lastN M (u ++ [t])) hlen, lastN_lastN_append]
    simp

/-- C3 (amended to `max_history ≥ 1`): after `N` completed queries with
`max_history = M ≥ 1`, the stored history holds exactly `min N M` turns, and
they are the most recent `min N M` turns in their original order (oldest
evicted first). -/
theorem history_after_queries (M : Nat) (hM : 1 ≤ M) (sys : String)
    (searchFn : String → Nat → List Chunk) (k : Nat) (today : PyDateTime)
    (g : Rng) (turns : List (String × String)) :
    (runQueries M sys searchFn k today g turns).length
        = 2 * min turns.length M ∧
    runQueries M sys searchFn k today g turns
        = turnsToMsgs (turns.drop (turns.length - min turns.length M)) := by
  have hrun : runQueries M sys searchFn k today g turns
      = turnsToMsgs (lastN M turns) := by
    unfold runQueries
    have h0 := runQueries_invariant M hM sys searchFn k today g turns [] (by simp)
    simpa using h0
  have hdropeq : turns.length - M = turns.length - min turns.length M := by omega
  constructor
  · rw [hrun, turnsToMsgs_length, lastN_length]
    omega
  · rw [hrun]
    unfold lastN
    rw [hdropeq]

/-- C3, as stated, is refuted at `max_history = 0`: one completed query
leaves 2 messages (1 turn) in history instead of `min(1, 0) = 0`, because
`history[-0:]` is the whole list in Python. -/
theorem trim_zero_counterexample :
    (runQueries 0 "sys" emptySearch 3 midnight0615 rng0 [("q", "a")]).length = 2 ∧
    2 * min 1 0 = 0 := by
  constructor <;> decide

/-- Witness for `history_after_queries`: three turns with `max_history = 2`
keep exactly the last two turns. -/
theorem history_after_queries_witness :
    (runQueries 2 "sys" emptySearch 3 midnight0615 rng0
        [("q1", "a1"), ("q2", "a2"), ("q3", "a3")]).length = 2 * min 3 2 ∧
    runQueries 2 "sys" emptySearch 3 midnight0615 rng0
        [("q1", "a1"), ("q2", "a2"), ("q3", "a3")]
      = turnsToMsgs ([("q1", "a1"), ("q2", "a2"), ("q3", "a3")].drop
          ([("q1", "a1"), ("q2", "a2"), ("q3", "a3")].length - min 3 2)) :=
  history_after_queries 2 (by decide) "sys" emptySearch 3 midnight0615 rng0
    [("q1", "a1"), ("q2", "a2"), ("q3", "a3")]

/-! ### C8 — exactly the question/answer pair is stored, never the context -/

/-- C8: whatever branch `query` takes, the new history is the old history
with exactly `{role: user, content: original question}` and
`{role: assistant, content: final answer}` appended (then FIFO-trimmed); in
particular the stored user message carries the bare question, not the
context-augmented prompt message. -/
theorem history_update_shape (cfg : ChainCfg) (history : List Message)
    (fcClient : List Message → List ToolSchema → ModelResponse)
    (compClient : List Message → String)
    (searchFn : String → Nat → List Chunk)
    (today : PyDateTime) (g : Rng) (question : String) (k : Nat) :
    (query cfg history fcClient compClient searchFn today g question k).new_history
      = trim_history cfg.max_history (history ++
          [mkMsg "user" question,
           mkMsg "assistant"
             (query cfg history fcClient compClient searchFn today g question k).answer]) := by
  unfold query
  split
  · rfl
  · dsimp only
    split <;> rfl

/-! ### C9 — clearing history -/

/-- C9: after `clear_history`, `get_history` is empty and the message
sequence assembled for the next query is exactly the system prompt followed
by the single context-augmented user message — no prior turns.  The
"read-only snapshot" part of the claim is carried by the embedding of
`get_history` (`self.history.copy()` returns a fresh list equal in value to
the stored one, so no mutation of the returned list can reach the state). -/
theorem clear_history_effect (s : ChainState) (cfg : ChainCfg)
    (fcClient : List Message → List ToolSchema → ModelResponse)
    (compClient : List Message → String)
    (searchFn : String → Nat → List Chunk)
    (today : PyDateTime) (g : Rng) (question : String) (k : Nat) :
    get_history (clear_history s) = [] ∧
    (query cfg (get_history (clear_history s)) fcClient compClient searchFn
        today g question k).sent_messages
      = [mkMsg "system" cfg.system_prompt,
         mkMsg "user" (contextUserMessage (build_context (searchFn question k)) question)] := by
  refine ⟨rfl, ?_⟩
  unfold query
  split
  · rfl
  · dsimp only
    split <;> rfl

/-! ### C5 — only the first requested tool call is executed -/

/-- C5: with a weather service configured, whenever the model response
contains a non-empty `tool_calls` list, `query` executes exactly one tool
call — the first element — no matter how many were requested. -/
theorem first_tool_call_only (cfg : ChainCfg) (wcfg : WeatherCfg)
    (hws : cfg.weather_service = some wcfg)
    (history : List Message)
    (fcClient : List Message → List ToolSchema → ModelResponse)
    (compClient : List Message → String)
    (searchFn : String → Nat → List Chunk)
    (today : PyDateTime) (g : Rng) (question : String) (k : Nat)
    (h : (fcClient
        (build_messages cfg.system_prompt history (build_context (searchFn question k)) question)
        (chainTools cfg)).tool_calls ≠ []) :
    (query cfg history fcClient compClient searchFn today g question k).executed_tool_calls
      = (fcClient
          (build_messages cfg.system_prompt history (build_context (searchFn question k)) question)
          (chainTools cfg)).tool_calls.take 1 ∧
    (query cfg history fcClient compClient searchFn today g question k).tool_called = true := by
  obtain ⟨sys, M, ws⟩ := cfg
  dsimp only at hws
  subst hws
  unfold query
  dsimp only [chainTools] at h ⊢
  cases htc : (fcClient
      (build_messages sys history (build_context (searchFn question k)) question)
      [WEATHER_TOOL_SCHEMA]).tool_calls with
  | nil => exact absurd htc h
  | cons tc rest => exact ⟨rfl, rfl⟩

/-- Witness for `first_tool_call_only`: a model response requesting two tool
calls leads to exactly the first one being executed. -/
theorem first_tool_call_only_witness :
    (query cfgW [] (constFc ⟨"", [tcA, tcB]⟩) comp0 emptySearch midnight0615 rng0
        "q" 3).executed_tool_calls
      = ((constFc ⟨"", [tcA, tcB]⟩)
          (build_messages cfgW.system_prompt [] (build_context (emptySearch "q" 3)) "q")
          (chainTools cfgW)).tool_calls.take 1 ∧
    (query cfgW [] (constFc ⟨"", [tcA, tcB]⟩) comp0 emptySearch midnight0615 rng0
        "q" 3).tool_called = true :=
  first_tool_call_only cfgW ⟨true⟩ rfl [] (constFc ⟨"", [tcA, tcB]⟩) comp0 emptySearch
    midnight0615 rng0 "q" 3 (by decide)

/-! ### C6 — unknown tool names get a structured error, fed back normally -/

/-- C6: a tool call whose function is not a registered tool (name other than
`get_weather`, or no weather service configured) makes `_handle_tool_call`
return — not raise — the serialised `{"error": true, "message": "Función
desconocida: <name>"}` payload, and `query` feeds that string back to the
model as an ordinary `role: tool` message in the second model call. -/
theorem unknown_tool_error (ws : Option WeatherCfg) (today : PyDateTime)
    (g : Rng) (tc : ToolCall)
    (h : tc.function.name ≠ "get_weather" ∨ ws = none) :
    handle_tool_call ws today g tc
      = pyJsonDumps true (.obj [("error", .boolean true),
          ("message", .str ("Función desconocida: " ++ tc.function.name))]) ∧
    ∀ (sys : String) (M : Nat) (history : List Message) (r : ModelResponse)
      (compClient : List Message → String) (searchFn : String → Nat → List Chunk)
      (question : String) (k : Nat) (wcfg : WeatherCfg),
      ws = some wcfg → r.tool_calls.head? = some tc →
      (query ⟨sys, M, some wcfg⟩ history (constFc r) compClient searchFn
          today g question k).second_messages
        = some (build_messages sys history (build_context (searchFn question k)) question
            ++ [asstToolCallMsg tc,
                toolResultMsg tc.id (handle_tool_call ws today g tc)]) := by
  have h1 : handle_tool_call ws today g tc
      = pyJsonDumps true (.obj [("error", .boolean true),
          ("message", .str ("Función desconocida: " ++ tc.function.name))]) := by
    unfold handle_tool_call
    rcases h with hname | hnone
    · rw [if_neg hname]
      rfl
    · subst hnone
      by_cases hname : tc.function.name = "get_weather"
      · rw [if_pos hname]
        rfl
      · rw [if_neg hname]
        rfl
  refine ⟨h1, ?_⟩
  intro sys M history r compClient searchFn question k wcfg hwcfg hhead
  subst hwcfg
  unfold query
  dsimp only [chainTools, constFc]
  cases htc : r.tool_calls with
  | nil => rw [htc] at hhead; exact absurd hhead (by simp)
  | cons tc' rest =>
    rw [htc] at hhead
    simp only [List.head?_cons, Option.some.injEq] at hhead
    subst hhead
    rfl

/-- Witness for `unknown_tool_error`: the call `tcU` (function `get_time`)
yields the unknown-function payload, which appears as the tool message of the
second model call. -/
theorem unknown_tool_error_witness :
    handle_tool_call (some ⟨true⟩) midnight0615 rng0 tcU
      = pyJsonDumps true (.obj [("error", .boolean true),
          ("message", .str ("Función desconocida: " ++ tcU.function.name))]) ∧
    (query ⟨"sys", 5, some ⟨true⟩⟩ [] (constFc ⟨"", [tcU]⟩) comp0 emptySearch
        midnight0615 rng0 "q" 3).second_messages
      = some (build_messages "sys" [] (build_context (emptySearch "q" 3)) "q"
          ++ [asstToolCallMsg tcU,
              toolResultMsg tcU.id (handle_tool_call (some ⟨true⟩) midnight0615 rng0 tcU)]) :=
  have H := unknown_tool_error (some ⟨true⟩) midnight0615 rng0 tcU (Or.inl (by decide))
  ⟨H.1, H.2 "sys" 5 [] ⟨"", [tcU]⟩ comp0 emptySearch "q" 3 ⟨true⟩ rfl rfl⟩

/-! ### C7 — search requires an initialized index -/

/-- C7: while `self.vectorstore` is `None`, both `search` and
`search_with_scores` fail with their "not initialized" errors; after any
successful `build_from_documents` the same searches succeed (return `ok`). -/
theorem search_requires_init {Ix σ : Type} (B : VSBackend Ix σ)
    (split : List Page → List Chunk) (s : VSState Ix) (q : String) (k : Nat)
    (h : s.vectorstore = none) (pages : List Page) (q' : String) (k' : Nat) :
    vs_search B s q k = .error notInitSearchMsg ∧
    vs_search_with_scores B s q k = .error notInitScoresMsg ∧
    vs_search B (vs_build_from_documents B split s pages).1 q' k'
      = .ok (B.similaritySearch (B.fromDocuments (split pages)) q' k') ∧
    vs_search_with_scores B (vs_build_from_documents B split s pages).1 q' k'
      = .ok (B.similaritySearchWithScore (B.fromDocuments (split pages)) q' k') := by
  refine ⟨?_, ?_, rfl, rfl⟩
  · unfold vs_search
    rw [h]
  · unfold vs_search_with_scores
    rw [h]

/-- Witness for `search_requires_init` on the trivial backend and an
uninitialized store. -/
theorem search_requires_init_witness :
    vs_search backend0 vs0 "q" 3 = .error notInitSearchMsg ∧
    vs_search_with_scores backend0 vs0 "q" 3 = .error notInitScoresMsg ∧
    vs_search backend0 (vs_build_from_documents backend0 split0 vs0 [⟨some 1, "hola"⟩]).1 "q" 3
      = .ok (backend0.similaritySearch (backend0.fromDocuments (split0 [⟨some 1, "hola"⟩])) "q" 3) ∧
    vs_search_with_scores backend0
        (vs_build_from_documents backend0 split0 vs0 [⟨some 1, "hola"⟩]).1 "q" 3
      = .ok (backend0.similaritySearchWithScore
          (backend0.fromDocuments (split0 [⟨some 1, "hola"⟩])) "q" 3) :=
  search_requires_init backend0 split0 vs0 "q" 3 rfl [⟨some 1, "hola"⟩] "q" 3
